import Mathlib

/-!
Verification of the Weather-Based Outfit Recommender UI component
(`Frontend/src/App.jsx`, component `WeatherOutfitRecommender`).

The component is shallowly embedded: its React `useState` cells become the
fields of `ComponentState`, each event handler becomes a pure state-transition
function, and the single asynchronous fetch is split into `submitStart`
(everything the handler does before the response arrives, returning the
optional request body) and `submitComplete` (the state update performed once
the fetch resolves, succeeds with data, fails with a non-ok HTTP status, or
fails at the network level).  JavaScript numbers are modelled as rationals
and JavaScript strings as Lean strings.
-/

/-- Embedding of JavaScript `String.prototype.trim`: removes leading and
trailing whitespace characters. -/
def jsTrim (s : String) : String :=
  String.mk (((s.data.dropWhile Char.isWhitespace).reverse.dropWhile
    Char.isWhitespace).reverse)

/-- A latitude/longitude pair as produced by a Leaflet map click
(`e.latlng`). -/
structure Coords where
  lat : ℚ
  lng : ℚ
deriving DecidableEq, Repr

/-- One clothing item verdict from the backend response
(`data.recommendations[key]`). -/
structure RecommendationItem where
  item_name : String
  recommend : Bool
  confidence : ℚ
  error : Option String
deriving DecidableEq, Repr

/-- The `recommendations` mapping of the response: item key to verdict,
modelled as an association list. -/
def RecommendationSet : Type := List (String × RecommendationItem)

instance : DecidableEq RecommendationSet :=
  inferInstanceAs (DecidableEq (List (String × RecommendationItem)))

/-- The `weather_data` object of the response, with the fields the component
renders. -/
structure WeatherSnapshot where
  location : String
  temp : ℚ
  temp_c : ℚ
  condition : String
  condition_text : Option String
  season : String
  humidity : ℚ
  wind_kph : ℚ
deriving DecidableEq, Repr

/-- A parsed successful response body:
`\x7bweather_data, recommendations\x7d`. -/
structure ResponseData where
  recommendations : RecommendationSet
  weather_data : WeatherSnapshot
deriving DecidableEq

/-- The component's `useState` cells (App.jsx lines 15-22). -/
structure ComponentState where
  location : String
  coordinates : Coords
  selectedCoords : Option Coords
  recommendations : Option RecommendationSet
  weatherData : Option WeatherSnapshot
  loading : Bool
  error : String
  inputMethod : String
deriving DecidableEq

/-- The initial state of the component: empty location text, default map
center (6.8213291, 80.0415729), nothing selected, not loading, no error,
text-input mode. -/
def initState : ComponentState :=
  { location := ""
    coordinates := { lat := 68213291/10000000, lng := 800415729/10000000 }
    selectedCoords := none
    recommendations := none
    weatherData := none
    loading := false
    error := ""
    inputMethod := "location" }

/-- The text-input change handler (line 155):
`onChange=(e) => setLocation(e.target.value)` stores the raw input value. -/
def handleLocationChange (s : ComponentState) (value : String) :
    ComponentState :=
  { s with location := value }

/-- The input-method toggle buttons (lines 124 and 134) set `inputMethod` to
`"location"` or `"map"`. -/
def setInputMethod (s : ComponentState) (m : String) : ComponentState :=
  { s with inputMethod := m }

/-- The `MapClickHandler` click event (lines 27-31): stores the clicked
coordinates as `selectedCoords` and also as the map center `coordinates`. -/
def handleMapClick (s : ComponentState) (lat lng : ℚ) : ComponentState :=
  { s with selectedCoords := some { lat := lat, lng := lng }
           coordinates := { lat := lat, lng := lng } }

/-- The validation error message set by `handleLocationSubmit` (line 38). -/
def validationMessage : String :=
  "Please enter a location or select a point on the map"

/-- A request body for POST `/recommend-from-location` (lines 46-48): either
coordinates or a location string, each with the threshold parameter. -/
inductive RequestBody where
  | coords (lat lng threshold : ℚ)
  | location (location : String) (threshold : ℚ)
deriving DecidableEq, Repr

/-- The request-body construction of `handleLocationSubmit` (lines 46-48):
`selectedCoords && inputMethod === 'map' ? \x7blat, lon, threshold: 0.5\x7d
: \x7blocation: location.trim(), threshold: 0.5\x7d`. -/
def buildRequestBody (s : ComponentState) : RequestBody :=
  match s.selectedCoords with
  | some c =>
      if s.inputMethod = "map" then RequestBody.coords c.lat c.lng (1/2)
      else RequestBody.location (jsTrim s.location) (1/2)
  | none => RequestBody.location (jsTrim s.location) (1/2)

/-- The synchronous prefix of `handleLocationSubmit` (lines 36-56): the
validation guard `!location.trim() && !selectedCoords` either sets the
validation error and returns without a request (`none`), or sets
`loading := true`, clears the error, and issues the request body (`some`). -/
def submitStart (s : ComponentState) : ComponentState × Option RequestBody :=
  if jsTrim s.location = "" ∧ s.selectedCoords = none then
    ({ s with error := validationMessage }, none)
  else
    ({ s with loading := true, error := "" }, some (buildRequestBody s))

/-- The possible outcomes of the fetch: a parsed JSON body on an ok status,
a non-ok HTTP status (whose body is never read, lines 58-60), or a
network-level failure with the thrown error's message. -/
inductive FetchResult where
  | success (data : ResponseData)
  | httpError (status : ℕ)
  | networkError (message : String)

/-- The message of the error thrown on a non-ok response (line 59):
`HTTP error! status: $\x7bresponse.status\x7d`. -/
def httpErrorMessage (status : ℕ) : String :=
  "HTTP error! status: " ++ toString status

/-- The continuation of `handleLocationSubmit` once the fetch resolves
(lines 58-70): on success store `data.recommendations` and
`data.weather_data`; on any thrown error set the catch-block message; the
`finally` block clears `loading` on every path. -/
def submitComplete (s : ComponentState) : FetchResult → ComponentState
  | FetchResult.success data =>
      { s with recommendations := some data.recommendations
               weatherData := some data.weather_data
               loading := false }
  | FetchResult.httpError status =>
      { s with error := "Failed to get recommendations: " ++
                 httpErrorMessage status
               loading := false }
  | FetchResult.networkError msg =>
      { s with error := "Failed to get recommendations: " ++ msg
               loading := false }

/-- The `disabled` attribute of the submit button (line 176):
`loading || (!location.trim() && !selectedCoords)`. -/
def submitButtonDisabled (s : ComponentState) : Bool :=
  s.loading || (jsTrim s.location == "" && s.selectedCoords.isNone)

/-- The text field's key handler (line 158) invokes `handleLocationSubmit`
exactly when the pressed key is Enter, with no check of the loading flag. -/
def enterKeySubmits (key : String) : Bool :=
  key == "Enter"

/-- The icon lookup for a recommendation item name (lines 73-82), with the
default t-shirt glyph for unrecognized keys. -/
def getRecommendationIcon (item : String) : String :=
  if item = "outerwear" then "🧥"
  else if item = "sweater" then "🧶"
  else if item = "shorts" then "🩳"
  else if item = "boots" then "🥾"
  else if item = "hat" then "👒"
  else "👕"

/-- The icon lookup for a weather condition code (lines 84-93), with the
default cloud glyph for unrecognized codes. -/
def getWeatherIcon (condition : String) : String :=
  if condition = "rain" then "🌧️"
  else if condition = "snow" then "❄️"
  else if condition = "cold" then "🥶"
  else if condition = "hot" then "🔥"
  else if condition = "mild" then "🌤️"
  else "☁️"

/-- The confidence-to-color banding (lines 95-99): green at `>= 0.8`, yellow
at `>= 0.6`, red otherwise. -/
def getConfidenceColor (confidence : ℚ) : String :=
  if confidence ≥ 8/10 then "text-green-600"
  else if confidence ≥ 6/10 then "text-yellow-600"
  else "text-red-600"

/-- A state with a request in flight and a non-empty location text, reached
by typing "Colombo" and submitting. -/
def loadingState : ComponentState :=
  (submitStart (handleLocationChange initState "Colombo")).1

/-- C1: in every state whose trimmed location text is empty and with no
selected map coordinates, submit issues no network request (`none`) and sets
the error to the validation message. -/
theorem submit_empty_input_no_request_sets_validation_error
    (s : ComponentState) (h1 : jsTrim s.location = "")
    (h2 : s.selectedCoords = none) :
    submitStart s = ({ s with error := validationMessage }, none) := by
  rw [submitStart, if_pos ⟨h1, h2⟩]

/-- Witness for C1: the initial state has empty trimmed text and no selected
coordinates, and submitting there yields no request and the validation
error. -/
theorem submit_empty_input_no_request_sets_validation_error_witness :
    submitStart initState = ({ initState with error := validationMessage }, none) :=
  submit_empty_input_no_request_sets_validation_error initState (by decide) rfl

/-- C2: in every state whose input mode is "map" with selected coordinates
`c`, submit issues a request whose body is the coordinates with
threshold 0.5. -/
theorem submit_map_mode_sends_selected_coords
    (s : ComponentState) (c : Coords)
    (hm : s.inputMethod = "map") (hc : s.selectedCoords = some c) :
    (submitStart s).2 = some (RequestBody.coords c.lat c.lng (1/2)) := by
  have hv : ¬(jsTrim s.location = "" ∧ s.selectedCoords = none) := by
    simp [hc]
  rw [submitStart, if_neg hv]
  simp [buildRequestBody, hc, hm]

/-- Witness for C2: switching to map mode, clicking at (6.9, 80.0) and
submitting sends the body with lat 6.9, lon 80.0, threshold 0.5. -/
theorem submit_map_mode_sends_selected_coords_witness :
    (submitStart (setInputMethod (handleMapClick initState (69/10) 80) "map")).2
      = some (RequestBody.coords (69/10) 80 (1/2)) :=
  submit_map_mode_sends_selected_coords _ { lat := 69/10, lng := 80 } rfl rfl

/-- C3: in every state whose input mode is "location" with non-empty trimmed
text, submit issues a request whose body is the trimmed text with
threshold 0.5. -/
theorem submit_location_mode_sends_trimmed_text
    (s : ComponentState) (hm : s.inputMethod = "location")
    (ht : jsTrim s.location ≠ "") :
    (submitStart s).2 = some (RequestBody.location (jsTrim s.location) (1/2)) := by
  have hv : ¬(jsTrim s.location = "" ∧ s.selectedCoords = none) := fun h => ht h.1
  rw [submitStart, if_neg hv]
  cases hsc : s.selectedCoords with
  | none => simp [buildRequestBody, hsc]
  | some c => simp [buildRequestBody, hsc, hm]

/-- Witness for C3: typing "Colombo" in location mode and submitting sends
the body with location "Colombo" and threshold 0.5. -/
theorem submit_location_mode_sends_trimmed_text_witness :
    (submitStart (handleLocationChange initState "Colombo")).2
      = some (RequestBody.location "Colombo" (1/2)) := by
  have h := submit_location_mode_sends_trimmed_text
    (handleLocationChange initState "Colombo") rfl (by decide)
  rw [h, show jsTrim (handleLocationChange initState "Colombo").location
    = "Colombo" from by decide]

/-- C10: in every state whose input mode is "location", whose trimmed text
is empty, and with coordinates selected on the map, submit passes validation
and sends the body with the empty location string and threshold 0.5; the
selected coordinates are not used. -/
theorem submit_location_mode_empty_text_with_coords_sends_empty_location
    (s : ComponentState) (c : Coords) (hm : s.inputMethod = "location")
    (ht : jsTrim s.location = "") (hc : s.selectedCoords = some c) :
    submitStart s = ({ s with loading := true, error := "" },
      some (RequestBody.location "" (1/2))) := by
  have hv : ¬(jsTrim s.location = "" ∧ s.selectedCoords = none) := by
    simp [hc]
  rw [submitStart, if_neg hv]
  simp [buildRequestBody, hc, hm, ht]

/-- Witness for C10: clicking the map at (6.9, 80.0) while staying in
location mode with empty text, then submitting, sends the empty location
string. -/
theorem submit_location_mode_empty_text_with_coords_witness :
    submitStart (handleMapClick initState (69/10) 80)
      = ({ handleMapClick initState (69/10) 80 with loading := true, error := "" },
         some (RequestBody.location "" (1/2))) :=
  submit_location_mode_empty_text_with_coords_sends_empty_location
    (handleMapClick initState (69/10) 80) { lat := 69/10, lng := 80 }
    rfl (by decide) rfl

/-- C4: for every submission that passes validation and whose response has a
non-ok HTTP status, the error is set to the catch-block message carrying that
status code (no response body figures in this path: the `httpError` outcome
carries only the status), and the weather and recommendation state keep
their pre-submission values. -/
theorem http_error_sets_status_message_preserves_results
    (s : ComponentState) (status : ℕ)
    (hv : ¬(jsTrim s.location = "" ∧ s.selectedCoords = none)) :
    (submitComplete (submitStart s).1 (FetchResult.httpError status)).error
      = "Failed to get recommendations: HTTP error! status: "
          ++ toString status ∧
    (submitComplete (submitStart s).1
        (FetchResult.httpError status)).recommendations = s.recommendations ∧
    (submitComplete (submitStart s).1
        (FetchResult.httpError status)).weatherData = s.weatherData := by
  rw [submitStart, if_neg hv]
  refine ⟨?_, rfl, rfl⟩
  show "Failed to get recommendations: "
      ++ ("HTTP error! status: " ++ toString status)
    = "Failed to get recommendations: HTTP error! status: " ++ toString status
  apply String.ext
  simp [String.data_append]

/-- Witness for C4: submitting "Colombo" and receiving HTTP status 500
yields the error message containing "500" and leaves the (empty) results
untouched. -/
theorem http_error_sets_status_message_preserves_results_witness :
    (submitComplete (submitStart (handleLocationChange initState "Colombo")).1
        (FetchResult.httpError 500)).error
      = "Failed to get recommendations: HTTP error! status: 500" ∧
    (submitComplete (submitStart (handleLocationChange initState "Colombo")).1
        (FetchResult.httpError 500)).recommendations = none ∧
    (submitComplete (submitStart (handleLocationChange initState "Colombo")).1
        (FetchResult.httpError 500)).weatherData = none := by
  have h := http_error_sets_status_message_preserves_results
    (handleLocationChange initState "Colombo") 500 (by decide)
  refine ⟨?_, h.2.1, h.2.2⟩
  rw [h.1]
  decide

/-- C5: for every submission that passes validation, the loading flag is
true immediately after submission starts, and false after completion on
every outcome (success, HTTP error, network error); a submission failing
validation leaves the loading flag unchanged. -/
theorem loading_true_strictly_between_submit_and_completion
    (s : ComponentState)
    (hv : ¬(jsTrim s.location = "" ∧ s.selectedCoords = none)) :
    (submitStart s).1.loading = true ∧
    (∀ r : FetchResult, (submitComplete (submitStart s).1 r).loading = false) ∧
    (∀ t : ComponentState, jsTrim t.location = "" → t.selectedCoords = none →
      (submitStart t).1.loading = t.loading) := by
  refine ⟨?_, ?_, ?_⟩
  · rw [submitStart, if_neg hv]
  · intro r
    rw [submitStart, if_neg hv]
    cases r <;> rfl
  · intro t h1 h2
    rw [submitStart, if_pos ⟨h1, h2⟩]

/-- Witness for C5: submitting "Colombo" sets loading, and completion with
HTTP status 500 clears it again. -/
theorem loading_true_strictly_between_submit_and_completion_witness :
    (submitStart (handleLocationChange initState "Colombo")).1.loading = true ∧
    (submitComplete (submitStart (handleLocationChange initState "Colombo")).1
        (FetchResult.httpError 500)).loading = false := by
  have h := loading_true_strictly_between_submit_and_completion
    (handleLocationChange initState "Colombo") (by decide)
  exact ⟨h.1, h.2.1 (FetchResult.httpError 500)⟩

/-- C8: every submission replaces the previous error message: the error
held immediately after submit is invoked is the validation message when
validation fails, and the empty string otherwise — never the message of an
earlier attempt. -/
theorem submit_clears_previous_error (s : ComponentState) :
    (submitStart s).1.error =
      if jsTrim s.location = "" ∧ s.selectedCoords = none then
        validationMessage
      else "" := by
  rw [submitStart]
  split <;> rfl

/-- Counterexample to C6: in the in-flight state reached by typing "Colombo"
and submitting, the loading flag is true and the submit button's `disabled`
attribute is also true — the submit action does not remain enabled. -/
theorem loading_state_submit_button_disabled :
    loadingState.loading = true ∧ submitButtonDisabled loadingState = true := by
  constructor <;> decide

/-- C6 (amended): while the loading flag is true the submit button is
disabled, so a second click is prevented; but the submit handler itself has
no in-flight guard — invoked anyway (the Enter-key handler fires it for
every Enter press with no loading check) on a state that passes validation,
it still issues a request. -/
theorem loading_disables_button_but_handler_unguarded
    (s : ComponentState) (h : s.loading = true)
    (hv : ¬(jsTrim s.location = "" ∧ s.selectedCoords = none)) :
    submitButtonDisabled s = true ∧
    ((submitStart s).2).isSome = true ∧
    enterKeySubmits "Enter" = true := by
  refine ⟨?_, ?_, rfl⟩
  · simp [submitButtonDisabled, h]
  · rw [submitStart, if_neg hv]
    rfl

/-- Witness for the amended C6: in the in-flight "Colombo" state the button
is disabled, yet the handler invoked there still issues a request. -/
theorem loading_disables_button_but_handler_unguarded_witness :
    submitButtonDisabled loadingState = true ∧
    ((submitStart loadingState).2).isSome = true ∧
    enterKeySubmits "Enter" = true :=
  loading_disables_button_but_handler_unguarded loadingState
    (by decide) (by decide)

/-- Counterexample to C7: after the input event with string " Colombo ",
the stored location text is the raw string, not its trimmed form. -/
theorem text_input_stores_untrimmed :
    (handleLocationChange initState " Colombo ").location
      ≠ jsTrim " Colombo " := by
  decide

/-- C7 (amended): the text input handler stores the raw input string
unchanged; trimming is applied only afterwards, when the request body is
built at submission time. -/
theorem text_input_stores_raw_trim_applied_at_submit
    (s : ComponentState) (value : String) (hm : s.inputMethod ≠ "map") :
    (handleLocationChange s value).location = value ∧
    buildRequestBody (handleLocationChange s value)
      = RequestBody.location (jsTrim value) (1/2) := by
  refine ⟨rfl, ?_⟩
  cases hsc : s.selectedCoords with
  | none => simp [buildRequestBody, handleLocationChange, hsc]
  | some c => simp [buildRequestBody, handleLocationChange, hsc, hm]

/-- Witness for the amended C7: typing " Colombo " stores the raw string,
and the request body built from that state carries the trimmed "Colombo". -/
theorem text_input_stores_raw_trim_applied_at_submit_witness :
    (handleLocationChange initState " Colombo ").location = " Colombo " ∧
    buildRequestBody (handleLocationChange initState " Colombo ")
      = RequestBody.location (jsTrim " Colombo ") (1/2) :=
  text_input_stores_raw_trim_applied_at_submit initState " Colombo "
    (by decide)

/-- C9: the recommendation icon lookup returns the default glyph for every
key outside the fixed vocabulary, the weather icon lookup returns its
default for every unrecognized condition code, and the confidence banding
returns green (high) iff confidence ≥ 0.8, yellow (medium) iff
0.6 ≤ confidence < 0.8, and red (low) iff confidence < 0.6. -/
theorem icon_defaults_and_confidence_banding :
    (∀ item : String,
        item ∉ (["outerwear", "sweater", "shorts", "boots", "hat"] :
          List String) →
        getRecommendationIcon item = "👕") ∧
    (∀ condition : String,
        condition ∉ (["rain", "snow", "cold", "hot", "mild"] :
          List String) →
        getWeatherIcon condition = "☁️") ∧
    (∀ c : ℚ,
        (getConfidenceColor c = "text-green-600" ↔ 8/10 ≤ c) ∧
        (getConfidenceColor c = "text-yellow-600" ↔ 6/10 ≤ c ∧ c < 8/10) ∧
        (getConfidenceColor c = "text-red-600" ↔ c < 6/10)) := by
  refine ⟨?_, ?_, ?_⟩
  · intro item h
    simp only [List.mem_cons, List.not_mem_nil, or_false, not_or] at h
    obtain ⟨h1, h2, h3, h4, h5⟩ := h
    simp [getRecommendationIcon, h1, h2, h3, h4, h5]
  · intro condition h
    simp only [List.mem_cons, List.not_mem_nil, or_false, not_or] at h
    obtain ⟨h1, h2, h3, h4, h5⟩ := h
    simp [getWeatherIcon, h1, h2, h3, h4, h5]
  · intro c
    unfold getConfidenceColor
    split_ifs with h1 h2
    · exact ⟨⟨fun _ => h1, fun _ => rfl⟩,
        ⟨fun h => absurd h (by decide),
         fun hc => absurd h1 (not_le.mpr hc.2)⟩,
        ⟨fun h => absurd h (by decide),
         fun hc => absurd h1 (not_le.mpr (hc.trans (by norm_num)))⟩⟩
    · exact ⟨⟨fun h => absurd h (by decide), fun hc => absurd hc h1⟩,
        ⟨fun _ => ⟨h2, not_le.mp h1⟩, fun _ => rfl⟩,
        ⟨fun h => absurd h (by decide),
         fun hc => absurd h2 (not_le.mpr hc)⟩⟩
    · exact ⟨⟨fun h => absurd h (by decide), fun hc => absurd hc h1⟩,
        ⟨fun h => absurd h (by decide), fun hc => absurd hc.1 h2⟩,
        ⟨fun _ => not_le.mp h2, fun _ => rfl⟩⟩

/-- Witness for C9: "socks" is not in the item vocabulary and gets the
default glyph, "storm" gets the default weather glyph, and confidence 0.9
lands in the green (high) band. -/
theorem icon_defaults_and_confidence_banding_witness :
    getRecommendationIcon "socks" = "👕" ∧
    getWeatherIcon "storm" = "☁️" ∧
    getConfidenceColor (9/10) = "text-green-600" :=
  ⟨icon_defaults_and_confidence_banding.1 "socks" (by decide),
   icon_defaults_and_confidence_banding.2.1 "storm" (by decide),
   (icon_defaults_and_confidence_banding.2.2 (9/10)).1.mpr (by norm_num)⟩
